import Mathlib

/-! Verification of the Career Advisor application (src/main.py): the
`get_career_advice` advice client and the Streamlit three-step conversational
state machine that drives it. -/

namespace CareerAdvisor

/-- JSON values as produced by Python `json.loads`.  Objects are modelled as
association lists standing for Python dicts (keys distinct). -/
inductive Json where
  | str (s : String)
  | num (n : Int)
  | bool (b : Bool)
  | null
  | arr (xs : List Json)
  | obj (fields : List (String × Json))

/-- Key lookup in a JSON object's field list (Python dict indexing / `get`). -/
def lookupField : List (String × Json) → String → Option Json
  | [], _ => none
  | (k, v) :: rest, key => if k = key then some v else lookupField rest key

/-- Python `str.strip()` with no argument: drop leading and trailing
whitespace characters.  (Defined over the character list so that it reduces in
the kernel; `String.trim` does not.) -/
def pyStrip (s : String) : String :=
  ⟨((s.data.dropWhile Char.isWhitespace).reverse.dropWhile Char.isWhitespace).reverse⟩

/-- Whether the first list is an initial segment of the second. -/
def leadsList : List Char → List Char → Bool
  | [], _ => true
  | _ :: _, [] => false
  | a :: as, b :: bs => a == b && leadsList as bs

/-- Whether the first character list occurs contiguously inside the second
(Python substring membership `needle in haystack`). -/
def occursIn : List Char → List Char → Bool
  | needle, [] => needle.isEmpty
  | needle, c :: rest => leadsList needle (c :: rest) || occursIn needle rest

/-- Python `key in value` for a string `key`: key membership on dicts, element
membership on lists, substring membership on strings; `none` models the
`TypeError` raised on numbers, booleans and `None`. -/
def pyContains (key : String) (v : Json) : Option Bool :=
  match v with
  | .obj fields => some (lookupField fields key).isSome
  | .arr xs => some (xs.any fun x => match x with | .str s => s == key | _ => false)
  | .str s => some (occursIn key.data s.data)
  | _ => none

/-- Python `value[key]` with a string key: dict lookup (`KeyError` when the key
is absent); any non-dict value raises `TypeError`.  Exception messages are
modelled representatively — nothing in the application depends on their text. -/
def pyIndexStr : Json → String → Except String Json
  | .obj fields, key =>
    match lookupField fields key with
    | some v => .ok v
    | none => .error ("KeyError: " ++ key)
  | _, _ => .error "TypeError: value is not subscriptable by a string"

/-- Python `value[0]`: head of a list (`IndexError` when empty), first
character of a string, `KeyError` on a JSON dict (decoded JSON keys are
strings, so the integer key 0 is never present), `TypeError` otherwise. -/
def pyIndexZero : Json → Except String Json
  | .arr (x :: _) => .ok x
  | .arr [] => .error "IndexError: list index out of range"
  | .str s =>
    match s.data with
    | [] => .error "IndexError: string index out of range"
    | c :: _ => .ok (.str ⟨[c]⟩)
  | .obj _ => .error "KeyError: 0"
  | _ => .error "TypeError: value is not subscriptable"

/-- The expression `response.json()["choices"][0]["message"]["content"]` from
src/main.py line 61, applied to the already-decoded response body. -/
def extractContent (body : Json) : Except String Json := do
  let choices ← pyIndexStr body "choices"
  let first ← pyIndexZero choices
  let message ← pyIndexStr first "message"
  pyIndexStr message "content"

/-- An HTTP response as the client sees it: `response.status_code` and
`response.text`.  Decoding of the body (`response.json()`) is performed by the
ambient JSON decoder, modelled by an explicit `parse` function. -/
structure HttpResponse where
  statusCode : Nat
  text : String

/-- Result of `requests.post`: either a response, or a raised exception
(network/transport fault) carrying `str(e)`. -/
inductive HttpOutcome where
  | response (r : HttpResponse)
  | exception (msg : String)

/-- Result of one call to `get_career_advice`: either the Python value the
function returns, or `nameError` — the call raises an uncaught `NameError`
instead of returning anything. -/
inductive AdviceResult where
  | ok (v : Json)
  | nameError

/-- Model of `get_career_advice` (src/main.py lines 24-68).  `parse` models
CPython JSON decoding, with `none` meaning a `JSONDecodeError` is raised
(`response.json()` decodes `response.text` with that same decoder, and
`json.loads(content)` decodes the extracted message content).  `oracle` maps
the conversation text placed in the request payload to the outcome of the
`requests.post` call.

The branch structure mirrors the source exactly:
* `requests.post` raises → caught by `except Exception as e` → an `error`
  dict `"Error: " + str(e)`;
* `response.status_code != 200` → an `error` dict embedding the status code
  and the raw body text;
* `response.json()` raises `JSONDecodeError` → the handler at line 64 runs
  before the local variable `content` (line 61) was ever assigned, so
  `content.strip()` raises `NameError`; a sibling `except` clause of the same
  `try` does not catch an exception raised inside another handler, so the call
  raises instead of returning (`AdviceResult.nameError`);
* the `["choices"][0]["message"]["content"]` extraction raises, or the
  extracted content is not a string (so `json.loads(content)` raises
  `TypeError`, which is not a `JSONDecodeError`) → caught by
  `except Exception` → an `error` dict;
* `json.loads(content)` raises `JSONDecodeError` (`content` is bound here) →
  the dict mapping `"clarify"` to `content.strip()`;
* otherwise the decoded value is returned as is. -/
def get_career_advice (parse : String → Option Json) (conversation : String)
    (oracle : String → HttpOutcome) : AdviceResult :=
  match oracle conversation with
  | .exception msg => .ok (.obj [("error", .str ("Error: " ++ msg))])
  | .response r =>
    if r.statusCode ≠ 200 then
      .ok (.obj [("error", .str
        ("Request failed (" ++ toString r.statusCode ++ "): " ++ r.text))])
    else
      match parse r.text with
      | none => .nameError
      | some body =>
        match extractContent body with
        | .error e => .ok (.obj [("error", .str ("Error: " ++ e))])
        | .ok (.str content) =>
          match parse content with
          | some v => .ok v
          | none => .ok (.obj [("clarify", .str (pyStrip content))])
        | .ok _ =>
          .ok (.obj [("error", .str
            "Error: the JSON object must be str, bytes or bytearray")])

/-- The three values taken by `st.session_state.step` (src/main.py line 76). -/
inductive Step where
  | initial
  | clarify
  | results
deriving DecidableEq

/-- The Streamlit session state (src/main.py lines 75-84).  `clarify_question`
holds whatever Python value `result["clarify"]` produced, hence `Json`; its
initial value is the empty string. -/
structure SessionState where
  step : Step
  conversation : String
  clarify_question : Json
  clarify_response : String
  results : Option Json

/-- The state a fresh session starts in (src/main.py lines 75-84). -/
def initState : SessionState :=
  { step := .initial, conversation := "", clarify_question := .str "",
    clarify_response := "", results := none }

/-- Observable effect of one button-handler run: the session state afterwards,
the argument of the `get_career_advice` call when one was issued, the values
passed to `st.error` and `st.warning`, and whether the script run died with an
uncaught exception (in which case the session state is left as it was). -/
structure StepOutput where
  state : SessionState
  request : Option String
  errorShown : Option Json
  warningShown : Option String
  crashed : Bool

/-- The "Get Advice" handler of the initial step (src/main.py lines 94-109):
if the conversation is non-blank, call the client with it and dispatch on the
returned dict — `"error" in result` first, then `"clarify" in result`,
otherwise store the dict as results and move to the results step. -/
def initial_submit (parse : String → Option Json) (oracle : String → HttpOutcome)
    (st : SessionState) : StepOutput :=
  if pyStrip st.conversation ≠ "" then
    match get_career_advice parse st.conversation oracle with
    | .nameError => ⟨st, some st.conversation, none, none, true⟩
    | .ok result =>
      match pyContains "error" result with
      | none => ⟨st, some st.conversation, none, none, true⟩
      | some true =>
        match pyIndexStr result "error" with
        | .ok v => ⟨st, some st.conversation, some v, none, false⟩
        | .error _ => ⟨st, some st.conversation, none, none, true⟩
      | some false =>
        match pyContains "clarify" result with
        | none => ⟨st, some st.conversation, none, none, true⟩
        | some true =>
          match pyIndexStr result "clarify" with
          | .ok q =>
            ⟨{ st with clarify_question := q, step := .clarify },
              some st.conversation, none, none, false⟩
          | .error _ => ⟨st, some st.conversation, none, none, true⟩
        | some false =>
          ⟨{ st with results := some result, step := .results },
            some st.conversation, none, none, false⟩
  else
    ⟨st, none, none, some "Please enter your conversation first.", false⟩

/-- The "Get Advice" handler of the clarify step (src/main.py lines 128-144):
like the initial handler but called with `clarify_response`; on a further
clarify reply it overwrites the question, clears the response and leaves the
step unchanged. -/
def clarify_submit (parse : String → Option Json) (oracle : String → HttpOutcome)
    (st : SessionState) : StepOutput :=
  if pyStrip st.clarify_response ≠ "" then
    match get_career_advice parse st.clarify_response oracle with
    | .nameError => ⟨st, some st.clarify_response, none, none, true⟩
    | .ok result =>
      match pyContains "error" result with
      | none => ⟨st, some st.clarify_response, none, none, true⟩
      | some true =>
        match pyIndexStr result "error" with
        | .ok v => ⟨st, some st.clarify_response, some v, none, false⟩
        | .error _ => ⟨st, some st.clarify_response, none, none, true⟩
      | some false =>
        match pyContains "clarify" result with
        | none => ⟨st, some st.clarify_response, none, none, true⟩
        | some true =>
          match pyIndexStr result "clarify" with
          | .ok q =>
            ⟨{ st with clarify_question := q, clarify_response := "" },
              some st.clarify_response, none, none, false⟩
          | .error _ => ⟨st, some st.clarify_response, none, none, true⟩
        | some false =>
          ⟨{ st with results := some result, step := .results },
            some st.clarify_response, none, none, false⟩
  else
    ⟨st, none, none, some "Please provide your response first.", false⟩

/-- The "Start Over" handler (src/main.py lines 147-153): reset every session
field and return to the initial step. -/
def start_over (st : SessionState) : SessionState :=
  { st with
    step := .initial
    conversation := ""
    clarify_question := .str ""
    clarify_response := ""
    results := none }

/-- The "Start New Analysis" handler (src/main.py lines 192-198): identical
resets, reached from the results step. -/
def new_analysis (st : SessionState) : SessionState :=
  { st with
    step := .initial
    conversation := ""
    clarify_question := .str ""
    clarify_response := ""
    results := none }

/-- One clarify round: the user types a response into the text input (the
widget assigns it to `clarify_response`, src/main.py line 120) and clicks
"Get Advice". -/
def clarifyRound (parse : String → Option Json) (oracle : String → HttpOutcome)
    (resp : String) (st : SessionState) : StepOutput :=
  clarify_submit parse oracle { st with clarify_response := resp }

/-- Session state after `n` consecutive clarify rounds, round `i` meeting
network behaviour `oracles i` and typed response `resps i`. -/
def clarifyIter (parse : String → Option Json) (oracles : Nat → String → HttpOutcome)
    (resps : Nat → String) (s0 : SessionState) : Nat → SessionState
  | 0 => s0
  | n + 1 => (clarifyRound parse (oracles n) (resps n) (clarifyIter parse oracles resps s0 n)).state

/-- A chat-completion response body whose assistant message content is the
given string, shaped like the provider's `choices` envelope. -/
def envelope (content : String) : Json :=
  .obj [("choices", .arr [.obj [("message", .obj [("content", .str content)])]])]

/-- A decoder that decodes two fixed texts to fixed values and fails on every
other text; used to instantiate the theorems on concrete scenarios. -/
def tableParse (bodyText : String) (bodyVal : Json)
    (contentText : String) (contentVal : Json) : String → Option Json :=
  fun t =>
    if t = bodyText then some bodyVal
    else if t = contentText then some contentVal
    else none

/-- A decoder that fails on every text (no string is valid JSON for it). -/
def parseNone : String → Option Json := fun _ => none

/-- Network behaviour: every call gets HTTP 200 with a plain-text body that is
not valid JSON. -/
def oracleC2 : String → HttpOutcome := fun _ => .response ⟨200, "plain text, not json"⟩

/-- Decoder for the C1 scenario: the body decodes to an envelope whose content
is a plain-text question, and that content itself does not decode. -/
def parseC1 : String → Option Json := fun t =>
  if t = "BODY1" then some (envelope "Could you tell me more?") else none

/-- Network behaviour for the C1 scenario: HTTP 200 with body text BODY1. -/
def oracleC1 : String → HttpOutcome := fun _ => .response ⟨200, "BODY1"⟩

/-- Network behaviour: every call fails upstream with HTTP 500. -/
def oracleC3 : String → HttpOutcome := fun _ => .response ⟨500, "Internal Server Error"⟩

/-- A session holding a non-blank conversation and a non-blank clarification
response. -/
def stC3 : SessionState :=
  { initState with conversation := "I enjoy painting", clarify_response := "and also music" }

/-- Message-content dict for the C4 counterexample: it contains a `clarify`
field, but also an `error` field. -/
def fieldsC4 : List (String × Json) :=
  [("error", .str "quota exceeded"), ("clarify", .str "What subjects do you enjoy?")]

/-- Decoder for the C4 counterexample. -/
def parseC4 : String → Option Json :=
  tableParse "BODY4" (envelope "CONTENT4") "CONTENT4" (.obj fieldsC4)

/-- Message-content dict for the amended C4: a `clarify` field and no `error`
field. -/
def fieldsC4w : List (String × Json) :=
  [("clarify", .str "What subjects do you enjoy?")]

/-- Decoder for the amended C4 scenario. -/
def parseC4w : String → Option Json :=
  tableParse "BODY4" (envelope "CONTENT4") "CONTENT4" (.obj fieldsC4w)

/-- Network behaviour for the C4 scenarios: HTTP 200 with body text BODY4. -/
def oracleC4 : String → HttpOutcome := fun _ => .response ⟨200, "BODY4"⟩

/-- A session at the initial step holding a non-blank conversation. -/
def stC4 : SessionState := { initState with conversation := "I like stuff" }

/-- Message-content dict for the C5 counterexample: it contains `interests`,
`mapping` and `explanations`, but also a `clarify` field. -/
def fieldsC5ce : List (String × Json) :=
  [("interests", .arr [.str "Art"]),
   ("mapping", .obj [("Art", .str "Designer")]),
   ("explanations", .obj [("Designer", .str "Creative fit")]),
   ("clarify", .str "Anything else?")]

/-- Decoder for the C5 counterexample. -/
def parseC5ce : String → Option Json :=
  tableParse "BODY5" (envelope "CONTENT5") "CONTENT5" (.obj fieldsC5ce)

/-- Message-content dict for the amended C5: exactly the three result fields. -/
def fieldsC5w : List (String × Json) :=
  [("interests", .arr [.str "Art"]),
   ("mapping", .obj [("Art", .str "Designer")]),
   ("explanations", .obj [("Designer", .str "Creative fit")])]

/-- Decoder for the amended C5 scenario. -/
def parseC5w : String → Option Json :=
  tableParse "BODY5" (envelope "CONTENT5") "CONTENT5" (.obj fieldsC5w)

/-- Network behaviour for the C5 scenarios: HTTP 200 with body text BODY5. -/
def oracleC5 : String → HttpOutcome := fun _ => .response ⟨200, "BODY5"⟩

/-- A session whose conversation is whitespace only and whose clarification
response is empty. -/
def stC6 : SessionState := { initState with conversation := "   " }

/-- Decoder for the C8 scenario: the reply always decodes to a clarify dict. -/
def parseC8 : String → Option Json :=
  tableParse "BODY8" (envelope "CONTENT8") "CONTENT8" (.obj [("clarify", .str "Which one?")])

/-- Network behaviour of every C8 round: HTTP 200 with body text BODY8. -/
def oraclesC8 : Nat → String → HttpOutcome := fun _ _ => .response ⟨200, "BODY8"⟩

/-- The response typed in every C8 round. -/
def respsC8 : Nat → String := fun _ => "more info"

/-- The content dict decoded in every C8 round. -/
def fieldssC8 : Nat → List (String × Json) := fun _ => [("clarify", .str "Which one?")]

/-- The clarify question of every C8 round. -/
def qsC8 : Nat → Json := fun _ => .str "Which one?"

/-- A session sitting at the clarify step with a pending question. -/
def stC8 : SessionState :=
  { initState with step := .clarify, clarify_question := .str "What do you enjoy?" }

/-- First network behaviour for the C9 scenario. -/
def oracleC9a : String → HttpOutcome := fun _ => .response ⟨200, "BODY9"⟩

/-- Second network behaviour for the C9 scenario: it agrees with the first one
exactly on the clarification response text and differs everywhere else. -/
def oracleC9b : String → HttpOutcome := fun t =>
  if t = "and also music" then .response ⟨200, "BODY9"⟩ else .exception "network unreachable"

/-- Message-content dict for the C10 scenario: an `error` field authored by
the model, next to a `clarify` field. -/
def fieldsC10 : List (String × Json) :=
  [("error", .str "upstream busy"), ("clarify", .str "Tell me more")]

/-- Decoder for the C10 scenario. -/
def parseC10 : String → Option Json :=
  tableParse "BODY10" (envelope "CONTENT10") "CONTENT10" (.obj fieldsC10)

/-- Network behaviour for the C10 scenario: HTTP 200 with body text BODY10. -/
def oracleC10 : String → HttpOutcome := fun _ => .response ⟨200, "BODY10"⟩

/-- A session holding a non-blank conversation and clarification response. -/
def stC10 : SessionState :=
  { initState with conversation := "I like stuff", clarify_response := "books" }

/-- Evaluation of the client on the success path when the extracted message
content decodes to a JSON value: that value is returned as is. -/
theorem advice_parsed (parse : String → Option Json) (conv : String)
    (oracle : String → HttpOutcome) (r : HttpResponse) (body : Json)
    (content : String) (v : Json)
    (hor : oracle conv = .response r) (hst : r.statusCode = 200)
    (hbody : parse r.text = some body)
    (hext : extractContent body = .ok (.str content))
    (hp : parse content = some v) :
    get_career_advice parse conv oracle = .ok v := by
  unfold get_career_advice
  rw [hor]
  simp [hst, hbody, hext, hp]

/-- Evaluation of the client on the success path when the extracted message
content does not decode: the stripped raw text becomes a clarify dict. -/
theorem advice_unparsed (parse : String → Option Json) (conv : String)
    (oracle : String → HttpOutcome) (r : HttpResponse) (body : Json)
    (content : String)
    (hor : oracle conv = .response r) (hst : r.statusCode = 200)
    (hbody : parse r.text = some body)
    (hext : extractContent body = .ok (.str content))
    (hp : parse content = none) :
    get_career_advice parse conv oracle = .ok (.obj [("clarify", .str (pyStrip content))]) := by
  unfold get_career_advice
  rw [hor]
  simp [hst, hbody, hext, hp]

/-- Evaluation of the client on a non-success HTTP status: an error dict
embedding the status code and raw body text. -/
theorem advice_badStatus (parse : String → Option Json) (conv : String)
    (oracle : String → HttpOutcome) (r : HttpResponse)
    (hor : oracle conv = .response r) (hst : r.statusCode ≠ 200) :
    get_career_advice parse conv oracle = .ok (.obj [("error", .str
      ("Request failed (" ++ toString r.statusCode ++ "): " ++ r.text))]) := by
  unfold get_career_advice
  rw [hor]
  simp [hst]

/-- Dispatch of the initial-step handler on a dict containing an `error`
key: the message is displayed and the state is returned untouched. -/
theorem initial_submit_error (parse : String → Option Json)
    (oracle : String → HttpOutcome) (st : SessionState)
    (fields : List (String × Json)) (v : Json)
    (hcv : pyStrip st.conversation ≠ "")
    (hga : get_career_advice parse st.conversation oracle = .ok (.obj fields))
    (hv : lookupField fields "error" = some v) :
    initial_submit parse oracle st = ⟨st, some st.conversation, some v, none, false⟩ := by
  unfold initial_submit
  rw [if_pos hcv, hga]
  simp [pyContains, pyIndexStr, hv]

/-- Dispatch of the initial-step handler on a dict with a `clarify` key and no
`error` key: the question is stored and the step moves to clarify. -/
theorem initial_submit_clarify (parse : String → Option Json)
    (oracle : String → HttpOutcome) (st : SessionState)
    (fields : List (String × Json)) (q : Json)
    (hcv : pyStrip st.conversation ≠ "")
    (hga : get_career_advice parse st.conversation oracle = .ok (.obj fields))
    (herr : lookupField fields "error" = none)
    (hq : lookupField fields "clarify" = some q) :
    initial_submit parse oracle st =
      ⟨{ st with clarify_question := q, step := .clarify },
        some st.conversation, none, none, false⟩ := by
  unfold initial_submit
  rw [if_pos hcv, hga]
  simp [pyContains, pyIndexStr, herr, hq]

/-- Dispatch of the initial-step handler on a dict with neither an `error` nor
a `clarify` key: the dict is stored as the results, step moves to results. -/
theorem initial_submit_results (parse : String → Option Json)
    (oracle : String → HttpOutcome) (st : SessionState)
    (fields : List (String × Json))
    (hcv : pyStrip st.conversation ≠ "")
    (hga : get_career_advice parse st.conversation oracle = .ok (.obj fields))
    (herr : lookupField fields "error" = none)
    (hcl : lookupField fields "clarify" = none) :
    initial_submit parse oracle st =
      ⟨{ st with results := some (.obj fields), step := .results },
        some st.conversation, none, none, false⟩ := by
  unfold initial_submit
  rw [if_pos hcv, hga]
  simp [pyContains, pyIndexStr, herr, hcl]

/-- Dispatch of the clarify-step handler on a dict containing an `error` key:
the message is displayed and the state is returned untouched. -/
theorem clarify_submit_error (parse : String → Option Json)
    (oracle : String → HttpOutcome) (st : SessionState)
    (fields : List (String × Json)) (v : Json)
    (hcr : pyStrip st.clarify_response ≠ "")
    (hga : get_career_advice parse st.clarify_response oracle = .ok (.obj fields))
    (hv : lookupField fields "error" = some v) :
    clarify_submit parse oracle st = ⟨st, some st.clarify_response, some v, none, false⟩ := by
  unfold clarify_submit
  rw [if_pos hcr, hga]
  simp [pyContains, pyIndexStr, hv]

/-- Dispatch of the clarify-step handler on a dict with a `clarify` key and no
`error` key: the question is overwritten, the response cleared, the step kept. -/
theorem clarify_submit_clarify (parse : String → Option Json)
    (oracle : String → HttpOutcome) (st : SessionState)
    (fields : List (String × Json)) (q : Json)
    (hcr : pyStrip st.clarify_response ≠ "")
    (hga : get_career_advice parse st.clarify_response oracle = .ok (.obj fields))
    (herr : lookupField fields "error" = none)
    (hq : lookupField fields "clarify" = some q) :
    clarify_submit parse oracle st =
      ⟨{ st with clarify_question := q, clarify_response := "" },
        some st.clarify_response, none, none, false⟩ := by
  unfold clarify_submit
  rw [if_pos hcr, hga]
  simp [pyContains, pyIndexStr, herr, hq]

/-- Dispatch of the clarify-step handler on a dict with neither an `error` nor
a `clarify` key: the dict is stored as the results, step moves to results. -/
theorem clarify_submit_results (parse : String → Option Json)
    (oracle : String → HttpOutcome) (st : SessionState)
    (fields : List (String × Json))
    (hcr : pyStrip st.clarify_response ≠ "")
    (hga : get_career_advice parse st.clarify_response oracle = .ok (.obj fields))
    (herr : lookupField fields "error" = none)
    (hcl : lookupField fields "clarify" = none) :
    clarify_submit parse oracle st =
      ⟨{ st with results := some (.obj fields), step := .results },
        some st.clarify_response, none, none, false⟩ := by
  unfold clarify_submit
  rw [if_pos hcr, hga]
  simp [pyContains, pyIndexStr, herr, hcl]

/-- Claim C1: every HTTP-success (status 200) response whose assistant message
content is a non-empty string that is not valid JSON makes `get_career_advice`
return a clarify dict whose question is exactly the raw content with
surrounding whitespace stripped — and that dict carries no `error` key, so the
controller does not treat it as an error. -/
theorem claim_C1 (parse : String → Option Json) (conv : String)
    (oracle : String → HttpOutcome) (r : HttpResponse) (body : Json) (content : String)
    (hor : oracle conv = .response r) (hst : r.statusCode = 200)
    (hbody : parse r.text = some body)
    (hext : extractContent body = .ok (.str content))
    (hne : content ≠ "") (hnj : parse content = none) :
    get_career_advice parse conv oracle = .ok (.obj [("clarify", .str (pyStrip content))]) ∧
    pyContains "error" (Json.obj [("clarify", .str (pyStrip content))]) = some false :=
  ⟨advice_unparsed parse conv oracle r body content hor hst hbody hext hnj, rfl⟩

/-- Claim C1, instantiated: the plain-text reply "Could you tell me more?"
comes back as the clarify question verbatim. -/
theorem claim_C1_w :
    get_career_advice parseC1 "I like stuff" oracleC1 =
      .ok (.obj [("clarify", .str "Could you tell me more?")]) := by
  have h := claim_C1 parseC1 "I like stuff" oracleC1 ⟨200, "BODY1"⟩
    (envelope "Could you tell me more?") "Could you tell me more?"
    rfl rfl rfl rfl (by decide) rfl
  exact h.1

/-- Claim C2: when the HTTP response body itself is not valid JSON,
`response.json()` raises before `content` is assigned, and the
`except json.JSONDecodeError` handler then hits an unbound local: the call
raises `NameError` instead of returning an outcome.  Hence
`get_career_advice` is not total over HTTP-success responses. -/
theorem claim_C2 :
    get_career_advice parseNone "I like plants" oracleC2 = .nameError ∧
    ¬ ∀ (parse : String → Option Json) (conv : String) (oracle : String → HttpOutcome)
        (r : HttpResponse), oracle conv = .response r → r.statusCode = 200 →
        ∃ v, get_career_advice parse conv oracle = .ok v := by
  refine ⟨rfl, fun h => ?_⟩
  rcases h parseNone "I like plants" oracleC2 ⟨200, "plain text, not json"⟩ rfl rfl with ⟨v, hv⟩
  have hv2 : AdviceResult.nameError = AdviceResult.ok v := hv
  simp at hv2

/-- Claim C3: a non-success HTTP status makes the client return an error dict
whose message embeds the numeric status code and the raw body text, and on
that outcome both submit handlers display the message and leave the state and
every session field unchanged. -/
theorem claim_C3 (parse : String → Option Json) (oracle : String → HttpOutcome)
    (st : SessionState) (r s : HttpResponse)
    (hor1 : oracle st.conversation = .response r) (hr : r.statusCode ≠ 200)
    (hor2 : oracle st.clarify_response = .response s) (hs : s.statusCode ≠ 200)
    (hc1 : pyStrip st.conversation ≠ "") (hc2 : pyStrip st.clarify_response ≠ "") :
    get_career_advice parse st.conversation oracle = .ok (.obj [("error", .str
      ("Request failed (" ++ toString r.statusCode ++ "): " ++ r.text))]) ∧
    initial_submit parse oracle st = ⟨st, some st.conversation,
      some (.str ("Request failed (" ++ toString r.statusCode ++ "): " ++ r.text)),
      none, false⟩ ∧
    clarify_submit parse oracle st = ⟨st, some st.clarify_response,
      some (.str ("Request failed (" ++ toString s.statusCode ++ "): " ++ s.text)),
      none, false⟩ := by
  refine ⟨advice_badStatus parse st.conversation oracle r hor1 hr, ?_, ?_⟩
  · exact initial_submit_error parse oracle st _ _ hc1
      (advice_badStatus parse st.conversation oracle r hor1 hr) rfl
  · exact clarify_submit_error parse oracle st _ _ hc2
      (advice_badStatus parse st.clarify_response oracle s hor2 hs) rfl

/-- Claim C3, instantiated on an HTTP 500: the shown message carries the
status code and body, and the session state is unchanged in both steps. -/
theorem claim_C3_w :
    initial_submit parseNone oracleC3 stC3 = ⟨stC3, some "I enjoy painting",
      some (.str "Request failed (500): Internal Server Error"), none, false⟩ ∧
    clarify_submit parseNone oracleC3 stC3 = ⟨stC3, some "and also music",
      some (.str "Request failed (500): Internal Server Error"), none, false⟩ := by
  have h := claim_C3 parseNone oracleC3 stC3
    ⟨500, "Internal Server Error"⟩ ⟨500, "Internal Server Error"⟩
    rfl (by decide) rfl (by decide) (by decide) (by decide)
  exact ⟨h.2.1, h.2.2⟩

/-- Claim C4 as stated is false on the code: here the assistant message
content decodes to a JSON object that does contain a `clarify` field, yet the
initial-step submit displays an error and stays at the initial step, because
the handler tests `"error" in result` before `"clarify" in result`. -/
theorem claim_C4_ce :
    parseC4 "CONTENT4" = some (.obj fieldsC4) ∧
    lookupField fieldsC4 "clarify" = some (.str "What subjects do you enjoy?") ∧
    initial_submit parseC4 oracleC4 stC4 =
      ⟨stC4, some "I like stuff", some (.str "quota exceeded"), none, false⟩ ∧
    (initial_submit parseC4 oracleC4 stC4).state.step ≠ Step.clarify :=
  ⟨rfl, rfl, rfl, by decide⟩

/-- Claim C4 (amended): for every HTTP-success response whose assistant
message content parses as a JSON object containing a `clarify` field and no
`error` field, the client returns exactly that object, and submit from the
initial step stores the clarify value as the pending question and moves the
step to clarify, all other fields unchanged. -/
theorem claim_C4 (parse : String → Option Json) (oracle : String → HttpOutcome)
    (st : SessionState) (r : HttpResponse) (body : Json) (content : String)
    (fields : List (String × Json)) (q : Json)
    (hor : oracle st.conversation = .response r) (hst : r.statusCode = 200)
    (hbody : parse r.text = some body)
    (hext : extractContent body = .ok (.str content))
    (hp : parse content = some (.obj fields))
    (hq : lookupField fields "clarify" = some q)
    (herr : lookupField fields "error" = none)
    (hcv : pyStrip st.conversation ≠ "") :
    get_career_advice parse st.conversation oracle = .ok (.obj fields) ∧
    initial_submit parse oracle st =
      ⟨{ st with clarify_question := q, step := .clarify },
        some st.conversation, none, none, false⟩ := by
  have hga := advice_parsed parse st.conversation oracle r body content (.obj fields)
    hor hst hbody hext hp
  exact ⟨hga, initial_submit_clarify parse oracle st fields q hcv hga herr hq⟩

/-- Claim C4 (amended), instantiated: a pure clarify reply stores the question
and moves the session to the clarify step. -/
theorem claim_C4_w :
    initial_submit parseC4w oracleC4 stC4 =
      ⟨{ stC4 with clarify_question := .str "What subjects do you enjoy?", step := .clarify },
        some "I like stuff", none, none, false⟩ := by
  have h := claim_C4 parseC4w oracleC4 stC4 ⟨200, "BODY4"⟩ (envelope "CONTENT4")
    "CONTENT4" fieldsC4w (.str "What subjects do you enjoy?")
    rfl rfl rfl rfl rfl rfl rfl (by decide)
  exact h.2

/-- Claim C5 as stated is false on the code: here the assistant message
content decodes to a JSON object containing `interests`, `mapping` and
`explanations`, yet the submit moves to the clarify step and stores no
results, because the object also carries a `clarify` field and that branch is
tested first. -/
theorem claim_C5_ce :
    parseC5ce "CONTENT5" = some (.obj fieldsC5ce) ∧
    lookupField fieldsC5ce "interests" = some (.arr [.str "Art"]) ∧
    lookupField fieldsC5ce "mapping" = some (.obj [("Art", .str "Designer")]) ∧
    lookupField fieldsC5ce "explanations" = some (.obj [("Designer", .str "Creative fit")]) ∧
    (initial_submit parseC5ce oracleC5 stC4).state.step = Step.clarify ∧
    (initial_submit parseC5ce oracleC5 stC4).state.step ≠ Step.results ∧
    (initial_submit parseC5ce oracleC5 stC4).state.results = none :=
  ⟨rfl, rfl, rfl, rfl, rfl, by decide, rfl⟩

/-- Claim C5 (amended): for every HTTP-success response whose assistant
message content parses as a JSON object containing `interests`, `mapping` and
`explanations` and containing neither an `error` nor a `clarify` field, the
client returns exactly that object — absent fields are not defaulted, the
stored value is the decoded object itself — and submit from the initial step
stores it in the results and moves the step to results. -/
theorem claim_C5 (parse : String → Option Json) (oracle : String → HttpOutcome)
    (st : SessionState) (r : HttpResponse) (body : Json) (content : String)
    (fields : List (String × Json)) (i m x : Json)
    (hor : oracle st.conversation = .response r) (hst : r.statusCode = 200)
    (hbody : parse r.text = some body)
    (hext : extractContent body = .ok (.str content))
    (hp : parse content = some (.obj fields))
    (hi : lookupField fields "interests" = some i)
    (hm : lookupField fields "mapping" = some m)
    (hx : lookupField fields "explanations" = some x)
    (herr : lookupField fields "error" = none)
    (hcl : lookupField fields "clarify" = none)
    (hcv : pyStrip st.conversation ≠ "") :
    get_career_advice parse st.conversation oracle = .ok (.obj fields) ∧
    initial_submit parse oracle st =
      ⟨{ st with results := some (.obj fields), step := .results },
        some st.conversation, none, none, false⟩ := by
  have hga := advice_parsed parse st.conversation oracle r body content (.obj fields)
    hor hst hbody hext hp
  exact ⟨hga, initial_submit_results parse oracle st fields hcv hga herr hcl⟩

/-- Claim C5 (amended), instantiated: the three-field reply is stored exactly
as decoded and the session moves to the results step. -/
theorem claim_C5_w :
    initial_submit parseC5w oracleC5 stC4 =
      ⟨{ stC4 with results := some (.obj fieldsC5w), step := .results },
        some "I like stuff", none, none, false⟩ := by
  have h := claim_C5 parseC5w oracleC5 stC4 ⟨200, "BODY5"⟩ (envelope "CONTENT5")
    "CONTENT5" fieldsC5w (.arr [.str "Art"]) (.obj [("Art", .str "Designer")])
    (.obj [("Designer", .str "Creative fit")])
    rfl rfl rfl rfl rfl rfl rfl rfl rfl rfl (by decide)
  exact h.2

/-- Claim C6: submitting an empty or whitespace-only text never issues a call
(`request = none`), never changes the state, and only shows the validation
warning — in the initial step and in the clarify step alike. -/
theorem claim_C6 (parse : String → Option Json) (oracle : String → HttpOutcome)
    (s1 s2 : SessionState)
    (h1 : pyStrip s1.conversation = "") (h2 : pyStrip s2.clarify_response = "") :
    initial_submit parse oracle s1 =
      ⟨s1, none, none, some "Please enter your conversation first.", false⟩ ∧
    clarify_submit parse oracle s2 =
      ⟨s2, none, none, some "Please provide your response first.", false⟩ := by
  constructor
  · unfold initial_submit
    rw [if_neg (not_not_intro h1)]
  · unfold clarify_submit
    rw [if_neg (not_not_intro h2)]

/-- Claim C6, instantiated: a whitespace-only conversation and an empty
clarification response trigger the warnings and nothing else. -/
theorem claim_C6_w :
    initial_submit parseNone oracleC2 stC6 =
      ⟨stC6, none, none, some "Please enter your conversation first.", false⟩ ∧
    clarify_submit parseNone oracleC2 stC6 =
      ⟨stC6, none, none, some "Please provide your response first.", false⟩ :=
  claim_C6 parseNone oracleC2 stC6 stC6 (by decide) (by decide)

/-- Claim C7: both reset actions send every session field back to its empty
default and the step back to initial, whatever the prior session was. -/
theorem claim_C7 (st : SessionState) :
    start_over st = initState ∧ new_analysis st = initState :=
  ⟨rfl, rfl⟩

/-- Helper for claim C8: a clarify round whose reply is a clarify dict with no
`error` key overwrites the question, clears the response and leaves every
other field — the step included — alone. -/
theorem clarifyRound_state (parse : String → Option Json) (oracle : String → HttpOutcome)
    (resp : String) (st : SessionState) (fields : List (String × Json)) (q : Json)
    (hresp : pyStrip resp ≠ "")
    (hga : get_career_advice parse resp oracle = .ok (.obj fields))
    (herr : lookupField fields "error" = none)
    (hq : lookupField fields "clarify" = some q) :
    (clarifyRound parse oracle resp st).state =
      { st with clarify_question := q, clarify_response := "" } := by
  unfold clarifyRound
  rw [clarify_submit_clarify parse oracle { st with clarify_response := resp }
    fields q hresp hga herr hq]

/-- Claim C8: across any unbounded run of consecutive clarify rounds starting
at the clarify step, every round keeps the step at clarify and preserves the
conversation and results, and after each round the question has been
overwritten with that round's new question and the response cleared. -/
theorem claim_C8 (parse : String → Option Json) (oracles : Nat → String → HttpOutcome)
    (resps : Nat → String) (fieldss : Nat → List (String × Json)) (qs : Nat → Json)
    (s0 : SessionState)
    (hresp : ∀ i, pyStrip (resps i) ≠ "")
    (hcall : ∀ i, get_career_advice parse (resps i) (oracles i) = .ok (.obj (fieldss i)))
    (herr : ∀ i, lookupField (fieldss i) "error" = none)
    (hq : ∀ i, lookupField (fieldss i) "clarify" = some (qs i))
    (hs0 : s0.step = .clarify) :
    (∀ n, (clarifyIter parse oracles resps s0 n).step = .clarify ∧
      (clarifyIter parse oracles resps s0 n).conversation = s0.conversation ∧
      (clarifyIter parse oracles resps s0 n).results = s0.results) ∧
    (∀ n, (clarifyIter parse oracles resps s0 (n + 1)).clarify_question = qs n ∧
      (clarifyIter parse oracles resps s0 (n + 1)).clarify_response = "") := by
  have key : ∀ n, clarifyIter parse oracles resps s0 (n + 1) =
      { clarifyIter parse oracles resps s0 n with
        clarify_question := qs n, clarify_response := "" } := by
    intro n
    show (clarifyRound parse (oracles n) (resps n) (clarifyIter parse oracles resps s0 n)).state = _
    exact clarifyRound_state _ _ _ _ _ _ (hresp n) (hcall n) (herr n) (hq n)
  constructor
  · intro n
    induction n with
    | zero => exact ⟨hs0, rfl, rfl⟩
    | succ m ih =>
      rw [key m]
      exact ⟨ih.1, ih.2.1, ih.2.2⟩
  · intro n
    rw [key n]
    exact ⟨rfl, rfl⟩

/-- Claim C8, instantiated on two consecutive clarify rounds: the step is
still clarify, the question was overwritten, the response cleared. -/
theorem claim_C8_w :
    (clarifyIter parseC8 oraclesC8 respsC8 stC8 2).step = Step.clarify ∧
    (clarifyIter parseC8 oraclesC8 respsC8 stC8 2).clarify_question = .str "Which one?" ∧
    (clarifyIter parseC8 oraclesC8 respsC8 stC8 2).clarify_response = "" := by
  have h := claim_C8 parseC8 oraclesC8 respsC8 fieldssC8 qsC8 stC8
    (fun _ => (by decide : pyStrip "more info" ≠ "")) (fun _ => rfl)
    (fun _ => rfl) (fun _ => rfl) rfl
  exact ⟨(h.1 2).1, (h.2 1).1, (h.2 1).2⟩

/-- Claim C9: a non-blank clarification submit calls the client with exactly
the clarification response — the logged request is `clarify_response` alone,
the original conversation is left untouched, and the whole handler output
depends on the network behaviour only at that one text, so no transcript is
accumulated into the argument. -/
theorem claim_C9 (parse : String → Option Json) (ora orb : String → HttpOutcome)
    (st : SessionState) (h : pyStrip st.clarify_response ≠ "")
    (hagree : ora st.clarify_response = orb st.clarify_response) :
    ((clarify_submit parse ora st).request = some st.clarify_response ∧
      (clarify_submit parse ora st).state.conversation = st.conversation) ∧
    clarify_submit parse ora st = clarify_submit parse orb st := by
  have e : get_career_advice parse st.clarify_response ora =
      get_career_advice parse st.clarify_response orb := by
    unfold get_career_advice
    rw [hagree]
  refine ⟨⟨?_, ?_⟩, by unfold clarify_submit; rw [e]⟩
  · unfold clarify_submit
    rw [if_pos h]
    repeat' split
    all_goals rfl
  · unfold clarify_submit
    rw [if_pos h]
    repeat' split
    all_goals rfl

/-- Claim C9, instantiated: the logged request is the response text alone, and
a network behaviour that agrees with the first one only on that text yields
the identical handler output. -/
theorem claim_C9_w :
    (clarify_submit parseNone oracleC9a stC3).request = some "and also music" ∧
    clarify_submit parseNone oracleC9a stC3 = clarify_submit parseNone oracleC9b stC3 := by
  have h := claim_C9 parseNone oracleC9a oracleC9b stC3 (by decide) rfl
  exact ⟨h.1.1, h.2⟩

/-- Claim C10: an HTTP 200 reply whose message content decodes to a JSON
object with an `error` key is treated as an error by both submit handlers —
the value is displayed, the state and every session field stay unchanged — so
such a reply can never reach the clarify or results step, even when a
`clarify` key is also present, because the `error` test comes first. -/
theorem claim_C10 (parse : String → Option Json) (oracle : String → HttpOutcome)
    (st : SessionState) (r s : HttpResponse) (b1 b2 : Json) (c1 c2 : String)
    (f1 f2 : List (String × Json)) (v1 v2 : Json)
    (hor1 : oracle st.conversation = .response r) (hr : r.statusCode = 200)
    (hb1 : parse r.text = some b1) (he1 : extractContent b1 = .ok (.str c1))
    (hp1 : parse c1 = some (.obj f1)) (hv1 : lookupField f1 "error" = some v1)
    (hor2 : oracle st.clarify_response = .response s) (hs : s.statusCode = 200)
    (hb2 : parse s.text = some b2) (he2 : extractContent b2 = .ok (.str c2))
    (hp2 : parse c2 = some (.obj f2)) (hv2 : lookupField f2 "error" = some v2)
    (hcv : pyStrip st.conversation ≠ "") (hcr : pyStrip st.clarify_response ≠ "") :
    get_career_advice parse st.conversation oracle = .ok (.obj f1) ∧
    initial_submit parse oracle st = ⟨st, some st.conversation, some v1, none, false⟩ ∧
    clarify_submit parse oracle st = ⟨st, some st.clarify_response, some v2, none, false⟩ := by
  have hga1 := advice_parsed parse st.conversation oracle r b1 c1 (.obj f1)
    hor1 hr hb1 he1 hp1
  have hga2 := advice_parsed parse st.clarify_response oracle s b2 c2 (.obj f2)
    hor2 hs hb2 he2 hp2
  exact ⟨hga1, initial_submit_error parse oracle st f1 v1 hcv hga1 hv1,
    clarify_submit_error parse oracle st f2 v2 hcr hga2 hv2⟩

/-- Claim C10, instantiated: a model-authored dict with both an `error` and a
`clarify` key is shown as an error in both steps and changes nothing. -/
theorem claim_C10_w :
    initial_submit parseC10 oracleC10 stC10 =
      ⟨stC10, some "I like stuff", some (.str "upstream busy"), none, false⟩ ∧
    clarify_submit parseC10 oracleC10 stC10 =
      ⟨stC10, some "books", some (.str "upstream busy"), none, false⟩ ∧
    lookupField fieldsC10 "clarify" = some (.str "Tell me more") := by
  have h := claim_C10 parseC10 oracleC10 stC10 ⟨200, "BODY10"⟩ ⟨200, "BODY10"⟩
    (envelope "CONTENT10") (envelope "CONTENT10") "CONTENT10" "CONTENT10"
    fieldsC10 fieldsC10 (.str "upstream busy") (.str "upstream busy")
    rfl rfl rfl rfl rfl rfl rfl rfl rfl rfl rfl rfl (by decide) (by decide)
  exact ⟨h.2.1, h.2.2, rfl⟩

end CareerAdvisor
